import Mathlib

/-!
Shallow embedding of the AMQP CEL backend (`src/cel_amqp.c`).

The module registers a single CEL event callback, `amqp_cel_log`, which
formats one call-event record as a JSON document and publishes it once to
an AMQP exchange/queue taken from the installed configuration, and a
configuration loader, `load_config`, which parses `cel_amqp.conf` through
the ACO machinery and (re-)acquires the named AMQP connection.

External collaborators (the Asterisk JSON library, the AMQP connection
manager `res_amqp`, the ACO config framework, `ast_cel_fill_record`,
`ast_channel_amaflags2string`) are modelled as oracles carried in
environment structures; the module's own control flow, field wiring and
log calls are translated line by line from the source.
-/

namespace CelAmqp

/-- JSON values, as produced by the Asterisk JSON library. -/
inductive Json where
  | null : Json
  | bool (b : Bool) : Json
  | num (n : Int) : Json
  | str (s : String) : Json
  | arr (elems : List Json) : Json
  | obj (fields : List (String × Json)) : Json

/-- Keys of a JSON object (in emission order), empty for non-objects. -/
def Json.keys : Json → List String
  | Json.obj fs => fs.map Prod.fst
  | _ => []

/-- Field lookup in a JSON object. -/
def Json.lookup : Json → String → Option Json
  | Json.obj fs, k => fs.lookup k
  | _, _ => none

/-- A `struct timeval` event timestamp. -/
structure Timeval where
  sec : Int
  usec : Int
deriving DecidableEq

/-- An AMQP connection handle (`struct ast_amqp_connection *`), abstract
except for identity. -/
structure AmqpConnection where
  id : Nat
deriving DecidableEq

/-- The fields of `struct ast_cel_event_record` read by `amqp_cel_log`.
`ast_cel_fill_record` (external) populates every string field, absent
source values becoming empty strings. -/
structure CelEventRecord where
  event_type : Nat
  event_name : String
  user_defined_name : String
  account_code : String
  caller_id_num : String
  caller_id_name : String
  caller_id_ani : String
  caller_id_rdnis : String
  caller_id_dnid : String
  extension : String
  context : String
  channel_name : String
  application_name : String
  application_data : String
  event_time : Timeval
  amaflag : Nat
  unique_id : String
  linked_id : String
  user_field : String
  peer : String
  peer_account : String
  extra : String

/-- The `AST_CEL_USER_DEFINED` tag of `enum ast_cel_event_type`. -/
def AST_CEL_USER_DEFINED : Nat := 21

/-- `AMQP_BASIC_DELIVERY_MODE_FLAG` from the AMQP client library (1 << 12). -/
def AMQP_BASIC_DELIVERY_MODE_FLAG : Nat := 4096

/-- `AMQP_BASIC_CONTENT_TYPE_FLAG` from the AMQP client library (1 << 15). -/
def AMQP_BASIC_CONTENT_TYPE_FLAG : Nat := 32768

/-- The `amqp_basic_properties_t` fields set by `amqp_cel_log`. -/
structure Props where
  flags : Nat
  delivery_mode : Nat
  content_type : String
deriving DecidableEq

/-- The message properties built at lines 213-217 of `cel_amqp.c`:
persistent delivery, content type `application/json`. -/
def cel_props : Props :=
  { flags := AMQP_BASIC_DELIVERY_MODE_FLAG ||| AMQP_BASIC_CONTENT_TYPE_FLAG
  , delivery_mode := 2
  , content_type := "application/json" }

/-- One call to `ast_amqp_basic_publish`, with every argument the module
passes. -/
structure PublishArgs where
  conn : AmqpConnection
  exchange : String
  routing_key : String
  mandatory : Nat
  immediate : Nat
  props : Props
  body : String
deriving DecidableEq

/-- The global configuration snapshot (`struct cel_amqp_global_conf`):
string fields plus the current AMQP connection. -/
structure GlobalVal where
  connection : String
  queue : String
  exchange : String
  amqp : Option AmqpConnection
deriving DecidableEq

/-- Oracles for the external functions `amqp_cel_log` calls: the result of
`ast_cel_fill_record` (`none` models a non-zero return), the JSON parser
`ast_json_load_string`, `ast_channel_amaflags2string`, `ast_json_timeval`,
whether `ast_json_pack` succeeds, `ast_json_dump_string`, and the result
code of `ast_amqp_basic_publish`. -/
structure LogEnv where
  fill_record : Option CelEventRecord
  json_load_string : String → Option Json
  amaflags2string : Nat → String
  timeval_json : Timeval → Json
  pack_ok : Bool
  dump : Json → Option String
  publish_result : PublishArgs → Int

/-- Everything observable about one run of the callback: the publish calls
issued (in order), the `ast_log` messages the module itself emitted, and
the JSON document constructed (if `ast_json_pack` succeeded). -/
structure LogOutcome where
  publishCalls : List PublishArgs
  logs : List String
  json_doc : Option Json

/-- Lines 228-232: user-defined events report their user-defined name,
every other event its standard event-type name. -/
def cel_event_name (r : CelEventRecord) : String :=
  if r.event_type = AST_CEL_USER_DEFINED then r.user_defined_name
  else r.event_name

/-- Lines 234-244: the extra field. Empty input yields JSON null;
otherwise the input is parsed as JSON; on parse failure an error is logged
and the raw text is wrapped as a JSON string. Returns the value and the
log messages emitted. -/
def cel_extra_json (env : LogEnv) (extraStr : String) : Json × List String :=
  if extraStr.length = 0 then (Json.null, [])
  else
    match env.json_load_string extraStr with
    | some j => (j, [])
    | none => (Json.str extraStr, ["Error parsing extra field"])

/-- Lines 246-284: the document handed to `ast_json_pack`, key for key in
the order of the format string (note the source's key `peer_acount`). -/
def cel_json_doc (env : LogEnv) (r : CelEventRecord) (extra : Json) : Json :=
  Json.obj
    [ ("event_name", Json.str (cel_event_name r))
    , ("account_code", Json.str r.account_code)
    , ("caller_id", Json.obj
        [ ("num", Json.str r.caller_id_num)
        , ("name", Json.str r.caller_id_name)
        , ("ani", Json.str r.caller_id_ani)
        , ("rdnis", Json.str r.caller_id_rdnis)
        , ("dnid", Json.str r.caller_id_dnid) ])
    , ("extension", Json.str r.extension)
    , ("context", Json.str r.context)
    , ("channel", Json.str r.channel_name)
    , ("application", Json.str r.application_name)
    , ("app_data", Json.str r.application_data)
    , ("event_time", env.timeval_json r.event_time)
    , ("amaflags", Json.str (env.amaflags2string r.amaflag))
    , ("unique_id", Json.str r.unique_id)
    , ("linked_id", Json.str r.linked_id)
    , ("user_field", Json.str r.user_field)
    , ("peer", Json.str r.peer)
    , ("peer_acount", Json.str r.peer_account)
    , ("extra", extra) ]

/-- The exact argument tuple the module passes to
`ast_amqp_basic_publish` (lines 296-302): the snapshot's connection,
exchange and queue (as routing key), `mandatory = 0`, `immediate = 0`, the
fixed properties, and the serialized document. -/
def cel_publish_args (g : GlobalVal) (c : AmqpConnection) (body : String) :
    PublishArgs :=
  { conn := c
  , exchange := g.exchange
  , routing_key := g.queue
  , mandatory := 0
  , immediate := 0
  , props := cel_props
  , body := body }

/-- The CEL callback `amqp_cel_log` (lines 202-307), run against the
configuration snapshot `conf` obtained from `ao2_global_obj_ref` (line
219, `none` when no configuration is installed). The result is `none`
exactly when the code would dereference a null configuration or null
connection at the publish call (the `ast_assert` at line 221 is a no-op in
production builds). -/
def amqp_cel_log (env : LogEnv) (conf : Option GlobalVal) : Option LogOutcome :=
  match env.fill_record with
  | none => some { publishCalls := [], logs := [], json_doc := none }
  | some r =>
    let ex := cel_extra_json env r.extra
    if env.pack_ok = false then
      some { publishCalls := [], logs := ex.2, json_doc := none }
    else
      let doc := cel_json_doc env r ex.1
      match env.dump doc with
      | none =>
        some { publishCalls := []
             , logs := ex.2 ++ ["Failed to build string from JSON"]
             , json_doc := some doc }
      | some body =>
        match conf with
        | none => none
        | some g =>
          match g.amqp with
          | none => none
          | some c =>
            let args := cel_publish_args g c body
            let res := env.publish_result args
            some { publishCalls := [args]
                 , logs := ex.2 ++
                     (if res ≠ 0 then ["Error publishing CEL to AMQP"] else [])
                 , json_doc := some doc }

/-- The keys actually present in `cel_amqp.conf`'s global section
(`none` = key absent from the file). -/
structure ConfFile where
  connection : Option String
  queue : Option String
  exchange : Option String
deriving DecidableEq

/-- Oracles for the loader's external calls: the parse of `cel_amqp.conf`
(`none` models a file/processing error inside ACO), whether the file
changed since the last load (ACO's timestamp check, consulted only on
reload), and `ast_amqp_get_connection` from `res_amqp`. -/
structure LoadEnv where
  parse : Option ConfFile
  changed : Bool
  get_connection : String → Option AmqpConnection

/-- A heap of configuration snapshot objects addressed by allocation
index, so that in-place writes to an installed snapshot are observable to
a reader holding a reference to its address. -/
structure ConfHeap where
  next : Nat
  mem : List (Nat × GlobalVal)

/-- Read the snapshot at address `a`. -/
def ConfHeap.get (h : ConfHeap) (a : Nat) : Option GlobalVal :=
  h.mem.lookup a

/-- Overwrite the snapshot at address `a` in place. -/
def ConfHeap.set (h : ConfHeap) (a : Nat) (v : GlobalVal) : ConfHeap :=
  { h with mem := (a, v) :: h.mem }

/-- Allocate a fresh snapshot object, returning the new heap and its
address. -/
def ConfHeap.alloc (h : ConfHeap) (v : GlobalVal) : ConfHeap × Nat :=
  ({ next := h.next + 1, mem := (h.next, v) :: h.mem }, h.next)

/-- The module's process-wide state: the snapshot heap and the address the
global `confs` object points at (`none` before the first successful
load). -/
structure ModState where
  heap : ConfHeap
  installed : Option Nat

/-- A freshly parsed global configuration: `conf_alloc` plus the option
defaults registered at lines 349-357 of `load_module` (connection `""`,
queue `"asterisk_cel"`, exchange `""`); no connection acquired yet. -/
def conf_from_file (f : ConfFile) : GlobalVal :=
  { connection := f.connection.getD ""
  , queue := f.queue.getD "asterisk_cel"
  , exchange := f.exchange.getD ""
  , amqp := none }

/-- Lines 171-195, `setup_amqp`, run by ACO as `pre_apply_config` on the
pending (not yet installed) configuration: drop its old connection and
acquire the one named by `connection`; fail (`none`) when acquisition
fails, with the error log emitted. -/
def setup_amqp (env : LoadEnv) (pending : GlobalVal) :
    Option GlobalVal × List String :=
  match env.get_connection pending.connection with
  | none => (none, ["Could not get AMQP connection " ++ pending.connection])
  | some c => (some { pending with amqp := some c }, [])

/-- Result of `aco_process_config`. -/
inductive AcoResult where
  | err : AcoResult
  | ok : AcoResult
  | unchanged : AcoResult
deriving DecidableEq

/-- `aco_process_config` (ACO framework, behaviour fixed by the
registrations at lines 166-169 and 349-357): on reload with an unchanged
file it does nothing; otherwise it parses the file, builds a pending
snapshot with the registered defaults, runs `setup_amqp` on it, and on
success installs the new snapshot by swapping the global pointer. On any
failure nothing is installed. -/
def aco_process_config (env : LoadEnv) (reload : Bool) (st : ModState) :
    AcoResult × ModState × List String :=
  if reload ∧ env.changed = false then (AcoResult.unchanged, st, [])
  else
    match env.parse with
    | none => (AcoResult.err, st, [])
    | some f =>
      match setup_amqp env (conf_from_file f) with
      | (none, logs) => (AcoResult.err, st, logs)
      | (some applied, logs) =>
        let al := st.heap.alloc applied
        (AcoResult.ok, { heap := al.1, installed := some al.2 }, logs)

/-- Lines 309-339, `load_config`: process the configuration, then take the
currently installed snapshot and refresh its `amqp` field in place with a
fresh `ast_amqp_get_connection` result, failing (with the field left
null) when acquisition fails. Returns the C return code, the new module
state, and the log messages emitted. -/
def load_config (env : LoadEnv) (reload : Bool) (st : ModState) :
    Int × ModState × List String :=
  match aco_process_config env reload st with
  | (AcoResult.err, st1, logs) => (-1, st1, logs)
  | (_, st1, logs) =>
    match st1.installed with
    | none => (-1, st1, logs ++ ["Error obtaining config from cel_amqp.conf"])
    | some a =>
      match st1.heap.get a with
      | none => (-1, st1, logs ++ ["Error obtaining config from cel_amqp.conf"])
      | some g =>
        match env.get_connection g.connection with
        | none =>
          (-1
          , { st1 with heap := st1.heap.set a { g with amqp := none } }
          , logs ++ ["Could not get AMQP connection " ++ g.connection])
        | some c =>
          (0
          , { st1 with heap := st1.heap.set a { g with amqp := some c } }
          , logs)

/-! Helper lemmas, shared by the claim theorems. -/

/-- Reading back the slot just written. -/
theorem ConfHeap.get_set (h : ConfHeap) (a : Nat) (v : GlobalVal) :
    (h.set a v).get a = some v := by
  simp [ConfHeap.get, ConfHeap.set, List.lookup]

/-- A non-empty string has non-zero length. -/
theorem String.length_ne_zero_of_ne_empty (s : String) (h : s ≠ "") :
    s.length ≠ 0 := by
  intro hl
  apply h
  cases s with
  | mk data =>
    have hd : data = [] := by simpa [String.length] using hl
    simp [hd]

/-- When `ast_cel_fill_record` fails, the callback returns at once with
nothing done. -/
theorem amqp_cel_log_fill_fail (env : LogEnv) (conf : Option GlobalVal)
    (h : env.fill_record = none) :
    amqp_cel_log env conf =
      some { publishCalls := [], logs := [], json_doc := none } := by
  unfold amqp_cel_log
  rw [h]

/-- When `ast_json_pack` fails, the callback drops the event silently (the
only possible log is the extra-parse one). -/
theorem amqp_cel_log_pack_fail (env : LogEnv) (conf : Option GlobalVal)
    (r : CelEventRecord)
    (hfill : env.fill_record = some r) (hpack : env.pack_ok = false) :
    amqp_cel_log env conf =
      some { publishCalls := [], logs := (cel_extra_json env r.extra).2
           , json_doc := none } := by
  unfold amqp_cel_log
  rw [hfill]
  simp [hpack]

/-- When `ast_json_dump_string` fails, the callback logs and drops the
event. -/
theorem amqp_cel_log_dump_fail (env : LogEnv) (conf : Option GlobalVal)
    (r : CelEventRecord)
    (hfill : env.fill_record = some r) (hpack : env.pack_ok = true)
    (hdump : env.dump (cel_json_doc env r (cel_extra_json env r.extra).1) = none) :
    amqp_cel_log env conf =
      some { publishCalls := []
           , logs := (cel_extra_json env r.extra).2 ++
               ["Failed to build string from JSON"]
           , json_doc := some (cel_json_doc env r (cel_extra_json env r.extra).1) } := by
  unfold amqp_cel_log
  rw [hfill]
  simp only [hpack, Bool.true_eq_false, if_false, hdump]

/-- The full outcome of a run that reaches the publish call. -/
theorem amqp_cel_log_publish (env : LogEnv) (r : CelEventRecord)
    (g : GlobalVal) (c : AmqpConnection) (body : String)
    (hfill : env.fill_record = some r) (hpack : env.pack_ok = true)
    (hdump : env.dump (cel_json_doc env r (cel_extra_json env r.extra).1) = some body)
    (hc : g.amqp = some c) :
    amqp_cel_log env (some g) =
      some { publishCalls := [cel_publish_args g c body]
           , logs := (cel_extra_json env r.extra).2 ++
               (if env.publish_result (cel_publish_args g c body) ≠ 0
                then ["Error publishing CEL to AMQP"] else [])
           , json_doc := some (cel_json_doc env r (cel_extra_json env r.extra).1) } := by
  unfold amqp_cel_log
  rw [hfill]
  simp only [hpack, Bool.true_eq_false, if_false, hdump, hc]

/-- A run reaching the publish call with no installed configuration would
dereference a null pointer (modelled as `none`). -/
theorem amqp_cel_log_no_conf (env : LogEnv) (r : CelEventRecord) (body : String)
    (hfill : env.fill_record = some r) (hpack : env.pack_ok = true)
    (hdump : env.dump (cel_json_doc env r (cel_extra_json env r.extra).1) = some body) :
    amqp_cel_log env none = none := by
  unfold amqp_cel_log
  rw [hfill]
  simp only [hpack, Bool.true_eq_false, if_false, hdump]

/-- A run reaching the publish call with a null connection in the snapshot
would dereference a null pointer (modelled as `none`). -/
theorem amqp_cel_log_no_conn (env : LogEnv) (r : CelEventRecord)
    (g : GlobalVal) (body : String)
    (hfill : env.fill_record = some r) (hpack : env.pack_ok = true)
    (hdump : env.dump (cel_json_doc env r (cel_extra_json env r.extra).1) = some body)
    (hc : g.amqp = none) :
    amqp_cel_log env (some g) = none := by
  unfold amqp_cel_log
  rw [hfill]
  simp only [hpack, Bool.true_eq_false, if_false, hdump, hc]

/-- Whenever packing succeeded and the callback terminated normally, the
document it built is exactly `cel_json_doc` at the extra value. -/
theorem amqp_cel_log_json_doc (env : LogEnv) (conf : Option GlobalVal)
    (r : CelEventRecord) (o : LogOutcome)
    (hfill : env.fill_record = some r) (hpack : env.pack_ok = true)
    (ho : amqp_cel_log env conf = some o) :
    o.json_doc = some (cel_json_doc env r (cel_extra_json env r.extra).1) := by
  unfold amqp_cel_log at ho
  rw [hfill] at ho
  simp only [hpack, Bool.true_eq_false, if_false] at ho
  split at ho
  · cases ho
    rfl
  · split at ho
    · cases ho
    · split at ho
      · cases ho
      · cases ho
        rfl

/-- Field lookups in the built document. -/
theorem cel_json_doc_lookup_extra (env : LogEnv) (r : CelEventRecord) (e : Json) :
    (cel_json_doc env r e).lookup "extra" = some e := rfl

/-- The `event_name` entry of the built document. -/
theorem cel_json_doc_lookup_event_name (env : LogEnv) (r : CelEventRecord) (e : Json) :
    (cel_json_doc env r e).lookup "event_name" =
      some (Json.str (cel_event_name r)) := rfl

/-! Concrete inputs for witnesses and counterexamples. -/

/-- A sample installed configuration snapshot holding a live connection. -/
def sampleConf : GlobalVal :=
  { connection := "x", queue := "q", exchange := "e", amqp := some ⟨5⟩ }

/-- A module state whose snapshot heap holds `sampleConf` at address 0,
installed. -/
def sampleState : ModState :=
  { heap := { next := 1, mem := [(0, sampleConf)] }, installed := some 0 }

/-- A sample event record (an ordinary, non-user-defined event, all
optional strings empty). -/
def sampleRecord : CelEventRecord :=
  { event_type := 1, event_name := "CHAN_START", user_defined_name := ""
  , account_code := "", caller_id_num := "", caller_id_name := ""
  , caller_id_ani := "", caller_id_rdnis := "", caller_id_dnid := ""
  , extension := "", context := "", channel_name := ""
  , application_name := "", application_data := ""
  , event_time := ⟨0, 0⟩, amaflag := 0, unique_id := "", linked_id := ""
  , user_field := "", peer := "", peer_account := "", extra := "" }

/-- A sample callback environment where every external call succeeds. -/
def sampleLogEnv : LogEnv :=
  { fill_record := some sampleRecord
  , json_load_string := fun _ => none
  , amaflags2string := fun _ => "DOCUMENTATION"
  , timeval_json := fun _ => Json.str "2015-01-01T00:00:00.000+0000"
  , pack_ok := true
  , dump := fun _ => some "body"
  , publish_result := fun _ => 0 }

/-! The claims. -/

/-- Claim C10: when `ast_cel_fill_record` fails (non-zero return, modelled
by `fill_record = none`), the callback returns immediately: no publish
call, no log message, no JSON document. (The callback never writes the
installed configuration in any branch: `amqp_cel_log` only reads the
snapshot it was handed.) -/
theorem claim_C10_fill_failure (env : LogEnv) (conf : Option GlobalVal)
    (h : env.fill_record = none) :
    amqp_cel_log env conf =
      some { publishCalls := [], logs := [], json_doc := none } := by
  unfold amqp_cel_log
  rw [h]

/-- Witness for C10 at a concrete environment whose record extraction
fails. -/
theorem claim_C10_witness :
    amqp_cel_log { sampleLogEnv with fill_record := none } (some sampleConf) =
      some { publishCalls := [], logs := [], json_doc := none } :=
  claim_C10_fill_failure { sampleLogEnv with fill_record := none }
    (some sampleConf) rfl

/-- Claim C5: the `event_name` entry of the formatted document is the
record's user-defined name exactly when the event type is
`AST_CEL_USER_DEFINED`, and the standard event-type name otherwise. -/
theorem claim_C5_event_name (env : LogEnv) (conf : Option GlobalVal)
    (r : CelEventRecord) (o : LogOutcome) (d : Json)
    (hfill : env.fill_record = some r) (hpack : env.pack_ok = true)
    (ho : amqp_cel_log env conf = some o) (hd : o.json_doc = some d) :
    d.lookup "event_name" =
      some (Json.str (if r.event_type = AST_CEL_USER_DEFINED
        then r.user_defined_name else r.event_name)) := by
  have h := amqp_cel_log_json_doc env conf r o hfill hpack ho
  rw [hd] at h
  injection h with h
  rw [h]
  exact cel_json_doc_lookup_event_name env r _

/-- A user-defined event record named `custom_x`. -/
def udRecord : CelEventRecord :=
  { sampleRecord with
    event_type := 21
    event_name := "USER_DEFINED"
    user_defined_name := "custom_x" }

/-- The environment delivering `udRecord`. -/
def udEnv : LogEnv := { sampleLogEnv with fill_record := some udRecord }

/-- Witness for C5: a concrete user-defined event formats with
`event_name = "custom_x"`, not its generic type name. -/
theorem claim_C5_witness :
    (cel_json_doc udEnv udRecord Json.null).lookup "event_name" =
      some (Json.str (if udRecord.event_type = AST_CEL_USER_DEFINED
        then udRecord.user_defined_name else udRecord.event_name)) :=
  claim_C5_event_name udEnv (some sampleConf) udRecord
    { publishCalls := [cel_publish_args sampleConf ⟨5⟩ "body"]
    , logs := []
    , json_doc := some (cel_json_doc udEnv udRecord Json.null) }
    (cel_json_doc udEnv udRecord Json.null) rfl rfl rfl rfl

/-- Claim C2 (documented intent vs. code): the formatted document always
has exactly the fixed key list, in source order, with the five nested
caller_id keys; but the code's key for the peer account is the literal
`peer_acount` (line 283) and `peer_account` never occurs, although the
source's own comment (line 255) and the spec schema both say
`peer_account`. -/
theorem claim_C2_key_schema (env : LogEnv) (r : CelEventRecord) (e : Json) :
    (cel_json_doc env r e).keys =
      ["event_name", "account_code", "caller_id", "extension", "context",
       "channel", "application", "app_data", "event_time", "amaflags",
       "unique_id", "linked_id", "user_field", "peer", "peer_acount",
       "extra"] ∧
    "peer_acount" ∈ (cel_json_doc env r e).keys ∧
    "peer_account" ∉ (cel_json_doc env r e).keys ∧
    ((cel_json_doc env r e).lookup "caller_id").map Json.keys =
      some ["num", "name", "ani", "rdnis", "dnid"] := by
  have hk : (cel_json_doc env r e).keys =
      ["event_name", "account_code", "caller_id", "extension", "context",
       "channel", "application", "app_data", "event_time", "amaflags",
       "unique_id", "linked_id", "user_field", "peer", "peer_acount",
       "extra"] := rfl
  refine ⟨hk, ?_, ?_, rfl⟩
  · rw [hk]
    decide
  · rw [hk]
    decide

/-- Claim C3: the `extra` entry of the formatted document is JSON null
for an empty extra input, the parsed value when the non-empty input
parses, and the raw text wrapped as a JSON string when it does not parse;
and a parse failure alone never drops the event: with serialization and
connection intact the publish call is still issued. -/
theorem claim_C3_extra_field (env : LogEnv) (conf : Option GlobalVal)
    (r : CelEventRecord) (o : LogOutcome) (d : Json)
    (hfill : env.fill_record = some r) (hpack : env.pack_ok = true)
    (ho : amqp_cel_log env conf = some o) (hd : o.json_doc = some d) :
    (r.extra = "" → d.lookup "extra" = some Json.null) ∧
    (∀ j, r.extra ≠ "" → env.json_load_string r.extra = some j →
      d.lookup "extra" = some j) ∧
    (r.extra ≠ "" → env.json_load_string r.extra = none →
      d.lookup "extra" = some (Json.str r.extra)) ∧
    (∀ g c body, r.extra ≠ "" → env.json_load_string r.extra = none →
      conf = some g → g.amqp = some c →
      env.dump (cel_json_doc env r (cel_extra_json env r.extra).1) = some body →
      o.publishCalls = [cel_publish_args g c body]) := by
  have h := amqp_cel_log_json_doc env conf r o hfill hpack ho
  rw [hd] at h
  injection h with h
  refine ⟨?_, ?_, ?_, ?_⟩
  · intro hext
    rw [h, cel_json_doc_lookup_extra, hext]
    rfl
  · intro j hne hload
    have hlen := String.length_ne_zero_of_ne_empty r.extra hne
    rw [h, cel_json_doc_lookup_extra]
    unfold cel_extra_json
    rw [if_neg hlen, hload]
  · intro hne hload
    have hlen := String.length_ne_zero_of_ne_empty r.extra hne
    rw [h, cel_json_doc_lookup_extra]
    unfold cel_extra_json
    rw [if_neg hlen, hload]
  · intro g c body _ _ hconf hc hdump
    subst hconf
    have hp := amqp_cel_log_publish env r g c body hfill hpack hdump hc
    rw [ho] at hp
    injection hp with hp
    rw [hp]

/-- An event record whose extra field is not valid JSON. -/
def badExtraRecord : CelEventRecord := { sampleRecord with extra := "not json" }

/-- The environment delivering `badExtraRecord`; its JSON parser rejects
every string. -/
def badExtraEnv : LogEnv := { sampleLogEnv with fill_record := some badExtraRecord }

/-- Witness for C3: a concrete malformed extra field is wrapped as a JSON
string and the event is still published. -/
theorem claim_C3_witness :
    (cel_json_doc badExtraEnv badExtraRecord
        (cel_extra_json badExtraEnv badExtraRecord.extra).1).lookup "extra" =
      some (Json.str "not json") ∧
    LogOutcome.publishCalls
      { publishCalls := [cel_publish_args sampleConf ⟨5⟩ "body"]
      , logs := ["Error parsing extra field"]
      , json_doc := some (cel_json_doc badExtraEnv badExtraRecord
          (Json.str "not json")) } =
      [cel_publish_args sampleConf ⟨5⟩ "body"] := by
  have T := claim_C3_extra_field badExtraEnv (some sampleConf) badExtraRecord
    { publishCalls := [cel_publish_args sampleConf ⟨5⟩ "body"]
    , logs := ["Error parsing extra field"]
    , json_doc := some (cel_json_doc badExtraEnv badExtraRecord
        (Json.str "not json")) }
    (cel_json_doc badExtraEnv badExtraRecord
      (cel_extra_json badExtraEnv badExtraRecord.extra).1)
    rfl rfl rfl rfl
  exact ⟨T.2.2.1 (by decide) rfl
       , T.2.2.2 sampleConf ⟨5⟩ "body" (by decide) rfl rfl rfl rfl⟩

/-- Claim C6: every publish call the callback issues carries
`delivery_mode = 2`, content type `application/json`, mandatory and
immediate flags 0, and is addressed to the exchange and queue of the
configuration snapshot in use. -/
theorem claim_C6_publish_properties (env : LogEnv) (conf : Option GlobalVal)
    (o : LogOutcome) (args : PublishArgs)
    (ho : amqp_cel_log env conf = some o) (ha : args ∈ o.publishCalls) :
    args.props.delivery_mode = 2 ∧
    args.props.content_type = "application/json" ∧
    args.mandatory = 0 ∧ args.immediate = 0 ∧
    ∃ g, conf = some g ∧ g.amqp = some args.conn ∧
      args.exchange = g.exchange ∧ args.routing_key = g.queue := by
  cases hfr : env.fill_record with
  | none =>
    rw [amqp_cel_log_fill_fail env conf hfr] at ho
    cases ho
    simp at ha
  | some r =>
    by_cases hp : env.pack_ok = false
    · rw [amqp_cel_log_pack_fail env conf r hfr hp] at ho
      cases ho
      simp at ha
    · have hp2 : env.pack_ok = true := by
        cases hb : env.pack_ok
        · exact absurd hb hp
        · rfl
      cases hdmp : env.dump (cel_json_doc env r (cel_extra_json env r.extra).1) with
      | none =>
        rw [amqp_cel_log_dump_fail env conf r hfr hp2 hdmp] at ho
        cases ho
        simp at ha
      | some body =>
        cases conf with
        | none =>
          rw [amqp_cel_log_no_conf env r body hfr hp2 hdmp] at ho
          cases ho
        | some g =>
          cases hc : g.amqp with
          | none =>
            rw [amqp_cel_log_no_conn env r g body hfr hp2 hdmp hc] at ho
            cases ho
          | some c =>
            rw [amqp_cel_log_publish env r g c body hfr hp2 hdmp hc] at ho
            cases ho
            simp only [List.mem_singleton] at ha
            subst ha
            exact ⟨rfl, rfl, rfl, rfl, g, rfl, hc, rfl, rfl⟩

/-- Witness for C6 at a concrete successful run: the one publish call has
the fixed properties and the snapshot's routing pair. -/
theorem claim_C6_witness :
    (cel_publish_args sampleConf ⟨5⟩ "body").props.delivery_mode = 2 ∧
    (cel_publish_args sampleConf ⟨5⟩ "body").props.content_type =
      "application/json" ∧
    (cel_publish_args sampleConf ⟨5⟩ "body").mandatory = 0 ∧
    (cel_publish_args sampleConf ⟨5⟩ "body").immediate = 0 ∧
    ∃ g, (some sampleConf : Option GlobalVal) = some g ∧
      g.amqp = some (cel_publish_args sampleConf ⟨5⟩ "body").conn ∧
      (cel_publish_args sampleConf ⟨5⟩ "body").exchange = g.exchange ∧
      (cel_publish_args sampleConf ⟨5⟩ "body").routing_key = g.queue :=
  claim_C6_publish_properties sampleLogEnv (some sampleConf)
    { publishCalls := [cel_publish_args sampleConf ⟨5⟩ "body"]
    , logs := []
    , json_doc := some (cel_json_doc sampleLogEnv sampleRecord Json.null) }
    (cel_publish_args sampleConf ⟨5⟩ "body") rfl (List.Mem.head _)

/-- Claim C8: in a run that reaches the publish call, exactly one publish
is attempted (no retry, re-queue or buffering); a non-zero publish result
adds exactly one error log and nothing else happens, and a zero result
adds nothing. -/
theorem claim_C8_publish_result (env : LogEnv) (conf : Option GlobalVal)
    (r : CelEventRecord) (g : GlobalVal) (c : AmqpConnection) (body : String)
    (o : LogOutcome)
    (hfill : env.fill_record = some r) (hpack : env.pack_ok = true)
    (hdump : env.dump (cel_json_doc env r (cel_extra_json env r.extra).1) = some body)
    (hconf : conf = some g) (hc : g.amqp = some c)
    (ho : amqp_cel_log env conf = some o) :
    o.publishCalls = [cel_publish_args g c body] ∧
    (env.publish_result (cel_publish_args g c body) ≠ 0 →
      o.logs = (cel_extra_json env r.extra).2 ++
        ["Error publishing CEL to AMQP"]) ∧
    (env.publish_result (cel_publish_args g c body) = 0 →
      o.logs = (cel_extra_json env r.extra).2) := by
  subst hconf
  have hp := amqp_cel_log_publish env r g c body hfill hpack hdump hc
  rw [ho] at hp
  injection hp with hp
  rw [hp]
  refine ⟨rfl, ?_, ?_⟩
  · intro hres
    simp [hres]
  · intro hres
    simp [hres]

/-- An environment whose broker publish call fails. -/
def pubFailEnv : LogEnv := { sampleLogEnv with publish_result := fun _ => 1 }

/-- Witness for C8 at a concrete failing publish: one call was made and
one error line logged. -/
theorem claim_C8_witness :
    LogOutcome.publishCalls
      { publishCalls := [cel_publish_args sampleConf ⟨5⟩ "body"]
      , logs := ["Error publishing CEL to AMQP"]
      , json_doc := some (cel_json_doc pubFailEnv sampleRecord Json.null) } =
      [cel_publish_args sampleConf ⟨5⟩ "body"] ∧
    LogOutcome.logs
      { publishCalls := [cel_publish_args sampleConf ⟨5⟩ "body"]
      , logs := ["Error publishing CEL to AMQP"]
      , json_doc := some (cel_json_doc pubFailEnv sampleRecord Json.null) } =
      (cel_extra_json pubFailEnv sampleRecord.extra).2 ++
        ["Error publishing CEL to AMQP"] := by
  have T := claim_C8_publish_result pubFailEnv (some sampleConf) sampleRecord
    sampleConf ⟨5⟩ "body"
    { publishCalls := [cel_publish_args sampleConf ⟨5⟩ "body"]
    , logs := ["Error publishing CEL to AMQP"]
    , json_doc := some (cel_json_doc pubFailEnv sampleRecord Json.null) }
    rfl rfl rfl rfl rfl rfl
  exact ⟨T.1, T.2.1 (by decide)⟩

/-- An environment whose `ast_json_pack` call fails. -/
def packFailEnv : LogEnv := { sampleLogEnv with pack_ok := false }

/-- Counterexample to C7 as stated: at a concrete event whose JSON packing
fails, the event is dropped and nothing is published, but the module logs
nothing at all (`if (!json) { return; }` at lines 285-287 has no
`ast_log`), contradicting that a non-fatal error is logged. -/
theorem claim_C7_counterexample :
    packFailEnv.pack_ok = false ∧
    amqp_cel_log packFailEnv (some sampleConf) =
      some { publishCalls := [], logs := [], json_doc := none } :=
  ⟨rfl, rfl⟩

/-- Claim C7 as amended: when document construction fails the event is
dropped and nothing (partial or otherwise) is published; on a
serialization (dump) failure the module logs an error, while on a pack
failure the module itself emits no log (only a prior extra-parse log can
be present). -/
theorem claim_C7_construction_failure (env : LogEnv) (conf : Option GlobalVal)
    (r : CelEventRecord) (hfill : env.fill_record = some r) :
    (env.pack_ok = false →
      amqp_cel_log env conf =
        some { publishCalls := [], logs := (cel_extra_json env r.extra).2
             , json_doc := none }) ∧
    (env.pack_ok = true →
      env.dump (cel_json_doc env r (cel_extra_json env r.extra).1) = none →
      amqp_cel_log env conf =
        some { publishCalls := []
             , logs := (cel_extra_json env r.extra).2 ++
                 ["Failed to build string from JSON"]
             , json_doc := some (cel_json_doc env r (cel_extra_json env r.extra).1) }) :=
  ⟨fun hp => amqp_cel_log_pack_fail env conf r hfill hp
  , fun hp hd => amqp_cel_log_dump_fail env conf r hfill hp hd⟩

/-- An environment whose `ast_json_dump_string` call fails. -/
def dumpFailEnv : LogEnv := { sampleLogEnv with dump := fun _ => none }

/-- Witness for the amended C7: concrete pack failure drops silently;
concrete dump failure drops with one error log; neither publishes. -/
theorem claim_C7_witness :
    amqp_cel_log packFailEnv (some sampleConf) =
      some { publishCalls := []
           , logs := (cel_extra_json packFailEnv sampleRecord.extra).2
           , json_doc := none } ∧
    amqp_cel_log dumpFailEnv (some sampleConf) =
      some { publishCalls := []
           , logs := (cel_extra_json dumpFailEnv sampleRecord.extra).2 ++
               ["Failed to build string from JSON"]
           , json_doc := some (cel_json_doc dumpFailEnv sampleRecord
               (cel_extra_json dumpFailEnv sampleRecord.extra).1) } :=
  ⟨(claim_C7_construction_failure packFailEnv (some sampleConf) sampleRecord
      rfl).1 rfl
  , (claim_C7_construction_failure dumpFailEnv (some sampleConf) sampleRecord
      rfl).2 rfl rfl⟩

/-- A load environment where the config file is unchanged and every
connection acquisition fails (the named connection profile is gone). -/
def failGetEnv : LoadEnv :=
  { parse := some { connection := none, queue := none, exchange := none }
  , changed := false
  , get_connection := fun _ => none }

/-- A load environment where the config file changed to name a bad
connection profile; acquisition fails. -/
def changedFailEnv : LoadEnv :=
  { parse := some { connection := some "bad", queue := none, exchange := none }
  , changed := true
  , get_connection := fun _ => none }

/-- A load environment where the config file is unchanged and acquisition
yields a fresh connection handle. -/
def freshConnEnv : LoadEnv :=
  { parse := some { connection := none, queue := none, exchange := none }
  , changed := false
  , get_connection := fun _ => some ⟨7⟩ }

/-- Counterexample to C1 as stated: on a reload whose config file is
unchanged (so ACO skips the pre-apply) and whose connection acquisition
fails, `load_config` does return -1, but the previously active snapshot
does not remain unchanged: its connection handle (previously live, id 5)
is overwritten with null in place, leaving a null connection installed. -/
theorem claim_C1_counterexample :
    (load_config failGetEnv true sampleState).1 = -1 ∧
    sampleState.heap.get 0 = some sampleConf ∧
    sampleConf.amqp = some ⟨5⟩ ∧
    (load_config failGetEnv true sampleState).2.1.installed = some 0 ∧
    (load_config failGetEnv true sampleState).2.1.heap.get 0 =
      some { sampleConf with amqp := none } := by
  refine ⟨by decide, by decide, by decide, by decide, by decide⟩

/-- Claim C1 as amended: when the reload processes a changed configuration
file and connection acquisition fails in `setup_amqp` (pre-apply),
`load_config` returns -1 and the whole previous state, the installed
(configuration, connection) pair included, is unchanged; but when config
processing reports the file unchanged and the subsequent in-place
connection refresh fails, `load_config` returns -1 with the installed
snapshot's connection handle overwritten to null. -/
theorem claim_C1_reload_failure :
    (∀ (env : LoadEnv) (reload : Bool) (st : ModState) (f : ConfFile),
      env.parse = some f →
      (reload = false ∨ env.changed = true) →
      env.get_connection (conf_from_file f).connection = none →
      load_config env reload st =
        (-1, st, ["Could not get AMQP connection " ++
          (conf_from_file f).connection])) ∧
    (∀ (env : LoadEnv) (st : ModState) (a : Nat) (g : GlobalVal),
      env.changed = false → st.installed = some a →
      st.heap.get a = some g →
      env.get_connection g.connection = none →
      (load_config env true st).1 = -1 ∧
      (load_config env true st).2.1.installed = some a ∧
      (load_config env true st).2.1.heap.get a =
        some { g with amqp := none }) := by
  constructor
  · intro env reload st f hparse hproc hget
    rcases hproc with h | h
    · subst h
      simp [load_config, aco_process_config, setup_amqp, hparse, hget]
    · simp [load_config, aco_process_config, setup_amqp, hparse, hget, h]
  · intro env st a g hch hi hg hget
    simp [load_config, aco_process_config, hch, hi, hg, hget,
      ConfHeap.get_set]

/-- Witness for the amended C1: the changed-file failure leaves the sample
state untouched; the unchanged-file failure nulls the installed
connection. -/
theorem claim_C1_witness :
    load_config changedFailEnv true sampleState =
      (-1, sampleState, ["Could not get AMQP connection " ++ "bad"]) ∧
    ((load_config failGetEnv true sampleState).1 = -1 ∧
     (load_config failGetEnv true sampleState).2.1.installed = some 0 ∧
     (load_config failGetEnv true sampleState).2.1.heap.get 0 =
       some { sampleConf with amqp := none }) :=
  ⟨claim_C1_reload_failure.1 changedFailEnv true sampleState
      { connection := some "bad", queue := none, exchange := none }
      rfl (Or.inr rfl) rfl
  , claim_C1_reload_failure.2 failGetEnv sampleState 0 sampleConf
      rfl rfl rfl rfl⟩

/-- Counterexample to C4 as stated: a concrete reload succeeds (return 0)
without swapping the process-wide pointer (the installed address is
unchanged, so no brand-new snapshot was installed), yet the snapshot at
that address — which a reader may hold a reference to — now has a
different value: its connection handle was mutated in place. -/
theorem claim_C4_counterexample :
    (load_config freshConnEnv true sampleState).1 = 0 ∧
    (load_config freshConnEnv true sampleState).2.1.installed =
      sampleState.installed ∧
    (load_config freshConnEnv true sampleState).2.1.heap.get 0 ≠
      sampleState.heap.get 0 := by
  refine ⟨by decide, by decide, by decide⟩

/-- Claim C4 as amended: a brand-new snapshot is constructed and the
pointer swapped only inside `aco_process_config` (changed-file path);
afterwards — and on the unchanged path in particular — `load_config`
refreshes the `amqp` field of the currently installed snapshot in place
through the shared pointer, so a snapshot a reader holds is not immutable:
its connection handle is overwritten at the installed address. -/
theorem claim_C4_reload_mutation (env : LoadEnv) (st : ModState) (a : Nat)
    (g : GlobalVal) (c : AmqpConnection)
    (hch : env.changed = false) (hi : st.installed = some a)
    (hg : st.heap.get a = some g)
    (hget : env.get_connection g.connection = some c) :
    (load_config env true st).1 = 0 ∧
    (load_config env true st).2.1.installed = some a ∧
    (load_config env true st).2.1.heap.get a =
      some { g with amqp := some c } := by
  simp [load_config, aco_process_config, hch, hi, hg, hget,
    ConfHeap.get_set]

/-- Witness for the amended C4 at the concrete fresh-connection reload. -/
theorem claim_C4_witness :
    (load_config freshConnEnv true sampleState).1 = 0 ∧
    (load_config freshConnEnv true sampleState).2.1.installed = some 0 ∧
    (load_config freshConnEnv true sampleState).2.1.heap.get 0 =
      some { sampleConf with amqp := some ⟨7⟩ } :=
  claim_C4_reload_mutation freshConnEnv sampleState 0 sampleConf ⟨7⟩
    rfl rfl rfl rfl

/-- Claim C9: a key absent from `cel_amqp.conf` takes its registered
default — connection `""`, queue `"asterisk_cel"`, exchange `""` — and a
successful initial load installs exactly the defaulted configuration
(with its acquired connection). -/
theorem claim_C9_defaults :
    (∀ f : ConfFile, f.connection = none →
      (conf_from_file f).connection = "") ∧
    (∀ f : ConfFile, f.queue = none →
      (conf_from_file f).queue = "asterisk_cel") ∧
    (∀ f : ConfFile, f.exchange = none →
      (conf_from_file f).exchange = "") ∧
    (∀ (env : LoadEnv) (st : ModState) (f : ConfFile) (c : AmqpConnection),
      env.parse = some f →
      env.get_connection (conf_from_file f).connection = some c →
      (load_config env false st).2.1.installed = some st.heap.next ∧
      (load_config env false st).2.1.heap.get st.heap.next =
        some { conf_from_file f with amqp := some c }) := by
  refine ⟨?_, ?_, ?_, ?_⟩
  · intro f h
    simp [conf_from_file, h]
  · intro f h
    simp [conf_from_file, h]
  · intro f h
    simp [conf_from_file, h]
  · intro env st f c hparse hget
    simp [load_config, aco_process_config, setup_amqp, hparse, hget,
      ConfHeap.alloc, ConfHeap.get, ConfHeap.set, List.lookup]

/-- Witness for C9: loading an all-defaults file into an empty state
installs connection `""`, queue `"asterisk_cel"`, exchange `""`. -/
theorem claim_C9_witness :
    (conf_from_file { connection := none, queue := none, exchange := none }).connection = "" ∧
    (conf_from_file { connection := none, queue := none, exchange := none }).queue = "asterisk_cel" ∧
    (conf_from_file { connection := none, queue := none, exchange := none }).exchange = "" ∧
    ((load_config
        { parse := some { connection := none, queue := none, exchange := none }
        , changed := true
        , get_connection := fun _ => some ⟨3⟩ }
        false { heap := { next := 0, mem := [] }, installed := none }).2.1.installed =
      some 0 ∧
     (load_config
        { parse := some { connection := none, queue := none, exchange := none }
        , changed := true
        , get_connection := fun _ => some ⟨3⟩ }
        false { heap := { next := 0, mem := [] }, installed := none }).2.1.heap.get 0 =
      some { conf_from_file { connection := none, queue := none, exchange := none } with
        amqp := some ⟨3⟩ }) :=
  ⟨claim_C9_defaults.1 { connection := none, queue := none, exchange := none } rfl
  , claim_C9_defaults.2.1 { connection := none, queue := none, exchange := none } rfl
  , claim_C9_defaults.2.2.1 { connection := none, queue := none, exchange := none } rfl
  , claim_C9_defaults.2.2.2
      { parse := some { connection := none, queue := none, exchange := none }
      , changed := true
      , get_connection := fun _ => some ⟨3⟩ }
      { heap := { next := 0, mem := [] }, installed := none }
      { connection := none, queue := none, exchange := none } ⟨3⟩ rfl rfl⟩

end CelAmqp
